import Mathlib

/-
  Shallow embedding of the mp3lame-encoder binding layer
  (src/lib.rs and src/input.rs).

  Machine integers are modelled as Nat (usize, u32) or Int (c_int) with
  explicit modular reduction where the source uses wrapping arithmetic.
  The modelled platform is 64-bit (usize = u64, c_int = i32), matching the
  crate's primary targets.  Native LAME calls are modelled as events
  recorded in traces; native return codes are inputs to the model.
-/

/-- Bit width of usize on the modelled (64-bit) platform. -/
def usizeBits : Nat := 64

/-- 2 ^ 64, the modulus of usize arithmetic. -/
def usizeMod : Nat := 2 ^ usizeBits

/-- Largest usize value. -/
def usizeMax : Nat := usizeMod - 1

/-- Rust usize::wrapping_add. -/
def usizeWrappingAdd (a b : Nat) : Nat := (a + b) % usizeMod

/-- Rust usize::saturating_add. -/
def usizeSaturatingAdd (a b : Nat) : Nat := min (a + b) usizeMax

/-- Largest c_int value (i32 on the modelled platform). -/
def cIntMax : Int := 2147483647

/-- Rust `as c_int` cast of a usize on the 64-bit platform: keep the
low 32 bits and reinterpret them as a two's-complement i32, so values
of 2^31 and above wrap to negative. -/
def usizeToCInt (n : Nat) : Int :=
  let low : Nat := n % 2 ^ 32
  if low < 2 ^ 31 then (low : Int) else (low : Int) - 2 ^ 32

/-- src/lib.rs max_required_buffer_size: 25% extra plus the 7200-byte
frame slack, computed with wrapping_add as in the source. -/
def max_required_buffer_size (sample_number : Nat) : Nat :=
  let sample_extra_size := sample_number / 4
  let sample_extra_size :=
    if sample_number % 4 > 0 then usizeWrappingAdd sample_extra_size 1
    else sample_extra_size
  usizeWrappingAdd (usizeWrappingAdd sample_number sample_extra_size) 7200

/-- src/lib.rs BuildError. -/
inductive BuildError where
  | Generic
  | NoMem
  | BadBRate
  | BadSampleFreq
  | InternalError
  | Other (code : Int)
  deriving DecidableEq, Repr

/-- src/lib.rs BuildError::from_c_int: early return Ok for nonnegative
codes, then match on the known negative codes with Other as catch-all. -/
def BuildError.from_c_int (code : Int) : Except BuildError Unit :=
  if code ≥ 0 then Except.ok ()
  else if code = -1 then Except.error BuildError.Generic
  else if code = -10 then Except.error BuildError.NoMem
  else if code = -11 then Except.error BuildError.BadBRate
  else if code = -12 then Except.error BuildError.BadSampleFreq
  else if code = -13 then Except.error BuildError.InternalError
  else Except.error (BuildError.Other code)

/-- src/lib.rs EncodeError. -/
inductive EncodeError where
  | BufferTooSmall
  | NoMem
  | InvalidState
  | PsychoAcoustic
  | Other (code : Int)
  deriving DecidableEq, Repr

/-- src/lib.rs EncodeError::from_c_int: nonnegative codes become the
byte count (code as usize), known negative codes map to named variants,
any other negative code to Other. -/
def EncodeError.from_c_int (code : Int) : Except EncodeError Nat :=
  if code ≥ 0 then Except.ok code.toNat
  else if code = -1 then Except.error EncodeError.BufferTooSmall
  else if code = -2 then Except.error EncodeError.NoMem
  else if code = -3 then Except.error EncodeError.InvalidState
  else if code = -4 then Except.error EncodeError.PsychoAcoustic
  else Except.error (EncodeError.Other code)

/-- src/lib.rs Id3TagError. -/
inductive Id3TagError where
  | AlbumArtOverflow
  deriving DecidableEq, Repr

/-- src/lib.rs MAX_ALBUM_ART_SIZE. -/
def MAX_ALBUM_ART_SIZE : Nat := 128 * 1024

/-- Text-field staging cap (MAX_BUFFER in set_id3_tag). -/
def MAX_BUFFER : Nat := 250

/-- src/lib.rs Id3Tag: six byte-slice fields, bytes modelled as Nat. -/
structure Id3Tag where
  title : List Nat
  artist : List Nat
  album : List Nat
  album_art : List Nat
  year : List Nat
  comment : List Nat

/-- src/lib.rs Id3Tag::is_any_set. -/
def Id3Tag.is_any_set (t : Id3Tag) : Bool :=
  !t.title.isEmpty || !t.artist.isEmpty || !t.album.isEmpty ||
  !t.album_art.isEmpty || !t.year.isEmpty || !t.comment.isEmpty

/-- One native call issued by the tag writer, carrying the bytes the
native side receives.  A text-field setter receives the staged scratch
buffer as a C string: the first min(250, len) field bytes followed by
the terminating zero written at buffer[size]. -/
inductive TagCall where
  | tagSubsystemStart
  | addV2
  | setAlbumart (art : List Nat)
  | setTitle (cstr : List Nat)
  | setAlbum (cstr : List Nat)
  | setArtist (cstr : List Nat)
  | setYear (cstr : List Nat)
  | setComment (cstr : List Nat)
  deriving DecidableEq, Repr

/-- The null-terminated staging of one text field: copy at most
MAX_BUFFER bytes into the scratch buffer, then buffer[size] = 0. -/
def stageField (field : List Nat) : List Nat :=
  let size := min MAX_BUFFER field.length
  field.take size ++ [0]

/-- src/lib.rs Builder::set_id3_tag, as a trace of native calls plus the
returned Result.  The source: early Ok when no field is set; then
id3tag_init and id3tag_add_v2 unconditionally; then the album-art block
(size check and early Err inside it); then title, album, artist, year,
comment in that source order, each skipped when empty. -/
def Builder.set_id3_tag (value : Id3Tag) : List TagCall × Except Id3TagError Unit :=
  if !value.is_any_set then ([], Except.ok ())
  else
    let calls := [TagCall.tagSubsystemStart, TagCall.addV2]
    if !value.album_art.isEmpty && value.album_art.length > MAX_ALBUM_ART_SIZE then
      (calls, Except.error Id3TagError.AlbumArtOverflow)
    else
      let calls := calls ++
        (if value.album_art.isEmpty then [] else [TagCall.setAlbumart value.album_art])
      let calls := calls ++
        (if value.title.isEmpty then [] else [TagCall.setTitle (stageField value.title)])
      let calls := calls ++
        (if value.album.isEmpty then [] else [TagCall.setAlbum (stageField value.album)])
      let calls := calls ++
        (if value.artist.isEmpty then [] else [TagCall.setArtist (stageField value.artist)])
      let calls := calls ++
        (if value.year.isEmpty then [] else [TagCall.setYear (stageField value.year)])
      let calls := calls ++
        (if value.comment.isEmpty then [] else [TagCall.setComment (stageField value.comment)])
      (calls, Except.ok ())

/-
  Lifecycle model for the native encoder context (claim about
  Builder::build / Drop for Builder / Drop for Encoder).

  A context allocated by Builder::new lives inside exactly one Builder.
  Its life ends in one of two ways: the Builder is dropped without
  build ever being called, or build is called once (consuming the
  Builder) with some native lame_init_params status code.  The events
  issued on the context over that whole life are recorded in a trace.
-/

/-- A native call touching the context over the life of a handle. -/
inductive LifeEvent where
  | lameInitParams (code : Int)
  | lameClose
  deriving DecidableEq, Repr

/-- Drop for Builder (src/lib.rs): one lame_close on the context. -/
def Builder.dropEvents : List LifeEvent := [LifeEvent.lameClose]

/-- Drop for Encoder (src/lib.rs): one lame_close on the context. -/
def Encoder.dropEvents : List LifeEvent := [LifeEvent.lameClose]

/-- Outcome of Builder::build given the native lame_init_params code. -/
structure BuildOutcome where
  events : List LifeEvent
  encoderProduced : Bool
  result : Except BuildError Unit

/-- src/lib.rs Builder::build: issues lame_init_params and classifies
its code.  On success the Builder is mem::forget-ten (its Drop never
runs, so no lame_close here) and the pointer moves into an Encoder.
On failure the consumed Builder is dropped at the end of build, which
runs Drop for Builder and closes the context. -/
def Builder.build (code : Int) : BuildOutcome :=
  match BuildError.from_c_int code with
  | Except.ok _ =>
      { events := [LifeEvent.lameInitParams code]
        encoderProduced := true
        result := Except.ok () }
  | Except.error e =>
      { events := [LifeEvent.lameInitParams code] ++ Builder.dropEvents
        encoderProduced := false
        result := Except.error e }

/-- How the life of one allocated context ends. -/
inductive BuilderFate where
  | droppedWithoutBuild
  | built (code : Int)

/-- All native calls issued on one context over its whole life: either
the Builder drop alone, or the build call followed (when an Encoder was
produced) by the eventual Encoder drop. -/
def lifeTrace : BuilderFate → List LifeEvent
  | BuilderFate.droppedWithoutBuild => Builder.dropEvents
  | BuilderFate.built code =>
      let outcome := Builder.build code
      outcome.events ++ (if outcome.encoderProduced then Encoder.dropEvents else [])

/-- Whether a life event is the native release call. -/
def LifeEvent.isClose : LifeEvent → Bool
  | LifeEvent.lameClose => true
  | _ => false

/-
  Builder::set_sample_rate (src/lib.rs): the u32 rate is converted by
  rate.try_into().unwrap_or(c_int::MAX), so values above c_int::MAX are
  clamped; the native result is classified by BuildError::from_c_int.
  The native setter itself is an oracle parameter of the model.
-/

/-- The c_int argument set_sample_rate hands to lame_set_in_samplerate:
try_into().unwrap_or(c_int::MAX) on the u32 rate. -/
def sampleRateArg (rate : Nat) : Int :=
  if (rate : Int) ≤ cIntMax then (rate : Int) else cIntMax

/-- src/lib.rs Builder::set_sample_rate, parameterized by the native
lame_set_in_samplerate behaviour (argument to status code). -/
def Builder.set_sample_rate (native : Int → Int) (rate : Nat) : Except BuildError Unit :=
  BuildError.from_c_int (native (sampleRateArg rate))

/-
  Vec-based encode wrappers (src/lib.rs encode_to_vec / flush_to_vec).
  A Vec is its logical length and capacity; the data bytes are not
  observable through these claims.  The native encode/flush result is
  the status code input.  Both wrappers read the original length, call
  the underlying operation on the spare capacity, and on Ok(written)
  set_len(original_len.saturating_add(written)); on Err the length is
  untouched.
-/

/-- Growable output buffer: logical length and capacity. -/
structure VecBuf where
  len : Nat
  cap : Nat

/-- src/lib.rs Encoder::encode_to_vec given the native status code of
the inner encode call. -/
def Encoder.encode_to_vec (code : Int) (output : VecBuf) : Except EncodeError Nat × VecBuf :=
  let original_len := output.len
  match EncodeError.from_c_int code with
  | Except.ok written =>
      (Except.ok written, { output with len := usizeSaturatingAdd original_len written })
  | Except.error e => (Except.error e, output)

/-- src/lib.rs Encoder::flush_to_vec given the native status code of
the inner flush call. -/
def Encoder.flush_to_vec (code : Int) (output : VecBuf) : Except EncodeError Nat × VecBuf :=
  let original_len := output.len
  match EncodeError.from_c_int code with
  | Except.ok written =>
      (Except.ok written, { output with len := usizeSaturatingAdd original_len written })
  | Except.error e => (Except.error e, output)

/-
  DualPcm input abstraction (src/input.rs).

  Sample values are never inspected by the binding; only slice lengths
  determine the native call.  Sample element types are modelled as:
  i16 and c_int as Int, u16 as Nat, f32 and f64 as Float (the width and
  numeric semantics are irrelevant to these claims).  Each impl of
  EncoderInput for DualPcm is one definition below, mirroring its body:
  debug_assert_eq! on the two lengths, samples_num = min of the lengths,
  then the native entry-point call, whose samples_num and output_len
  arguments go through the truncating `as c_int` cast (usizeToCInt).
  debug_assert is modelled by the debugAssertions flag: with assertions
  enabled a mismatch panics (result none); otherwise the call proceeds.
-/

/-- Native buffer-encode entry points reachable from DualPcm. -/
inductive FfiEntry where
  | lame_encode_buffer
  | lame_encode_buffer_int
  | lame_encode_buffer_ieee_float
  | lame_encode_buffer_ieee_double
  deriving DecidableEq, Repr

/-- The native buffer-encode call a DualPcm impl issues: entry point,
both channel buffer lengths, and the c_int sample count and output
capacity arguments as passed (after the truncating `as c_int` cast). -/
structure EncodeCall where
  entry : FfiEntry
  leftLen : Nat
  rightLen : Nat
  samplesNum : Int
  outputLen : Int
  deriving DecidableEq, Repr

/-- src/input.rs DualPcm: left and right channel slices. -/
structure DualPcm (α : Type) where
  left : List α
  right : List α

/-- impl EncoderInput for DualPcm of i16 (src/input.rs):
debug_assert_eq!(left.len(), right.len()); min length as sample count;
lame_encode_buffer. -/
def DualPcm.encodeI16 (debugAssertions : Bool) (self : DualPcm Int) (output_len : Nat) :
    Option EncodeCall :=
  if debugAssertions && !(self.left.length == self.right.length) then none
  else
    let samples_num := min self.left.length self.right.length
    some { entry := FfiEntry.lame_encode_buffer
           leftLen := self.left.length, rightLen := self.right.length
           samplesNum := usizeToCInt samples_num, outputLen := usizeToCInt output_len }

/-- impl EncoderInput for DualPcm of u16 (src/input.rs): same body,
routed through lame_encode_buffer with pointer casts. -/
def DualPcm.encodeU16 (debugAssertions : Bool) (self : DualPcm Nat) (output_len : Nat) :
    Option EncodeCall :=
  if debugAssertions && !(self.left.length == self.right.length) then none
  else
    let samples_num := min self.left.length self.right.length
    some { entry := FfiEntry.lame_encode_buffer
           leftLen := self.left.length, rightLen := self.right.length
           samplesNum := usizeToCInt samples_num, outputLen := usizeToCInt output_len }

/-- impl EncoderInput for DualPcm of c_int (src/input.rs): same body,
routed through lame_encode_buffer_int. -/
def DualPcm.encodeCInt (debugAssertions : Bool) (self : DualPcm Int) (output_len : Nat) :
    Option EncodeCall :=
  if debugAssertions && !(self.left.length == self.right.length) then none
  else
    let samples_num := min self.left.length self.right.length
    some { entry := FfiEntry.lame_encode_buffer_int
           leftLen := self.left.length, rightLen := self.right.length
           samplesNum := usizeToCInt samples_num, outputLen := usizeToCInt output_len }

/-- impl EncoderInput for DualPcm of f32 (src/input.rs): same body,
routed through lame_encode_buffer_ieee_float. -/
def DualPcm.encodeF32 (debugAssertions : Bool) (self : DualPcm Float) (output_len : Nat) :
    Option EncodeCall :=
  if debugAssertions && !(self.left.length == self.right.length) then none
  else
    let samples_num := min self.left.length self.right.length
    some { entry := FfiEntry.lame_encode_buffer_ieee_float
           leftLen := self.left.length, rightLen := self.right.length
           samplesNum := usizeToCInt samples_num, outputLen := usizeToCInt output_len }

/-- impl EncoderInput for DualPcm of f64 (src/input.rs): same body,
routed through lame_encode_buffer_ieee_double. -/
def DualPcm.encodeF64 (debugAssertions : Bool) (self : DualPcm Float) (output_len : Nat) :
    Option EncodeCall :=
  if debugAssertions && !(self.left.length == self.right.length) then none
  else
    let samples_num := min self.left.length self.right.length
    some { entry := FfiEntry.lame_encode_buffer_ieee_double
           leftLen := self.left.length, rightLen := self.right.length
           samplesNum := usizeToCInt samples_num, outputLen := usizeToCInt output_len }

/-- A tag whose album art is one byte over the 128 KiB ceiling and all
other fields empty. -/
def oversizedArtTag : Id3Tag :=
  { title := [], artist := [], album := [],
    album_art := List.replicate (MAX_ALBUM_ART_SIZE + 1) 0,
    year := [], comment := [] }

/-- The dual-channel sample-count policy of src/input.rs: with runtime
assertions disabled the native call always proceeds and its sample
count argument is the `as c_int` truncation of the minimum of the two
channel lengths — equal to that minimum exactly when it fits in c_int
(below 2^31); with assertions enabled a length mismatch is an assertion
failure (no native call) while equal lengths proceed exactly as in the
optimized build. -/
def dualPolicyHolds {α : Type} (entry : FfiEntry)
    (f : Bool → DualPcm α → Nat → Option EncodeCall) : Prop :=
  ∀ (self : DualPcm α) (output_len : Nat),
    f false self output_len =
      some { entry := entry
             leftLen := self.left.length, rightLen := self.right.length
             samplesNum := usizeToCInt (min self.left.length self.right.length)
             outputLen := usizeToCInt output_len } ∧
    (min self.left.length self.right.length < 2 ^ 31 →
      (f false self output_len).map EncodeCall.samplesNum =
        some ((min self.left.length self.right.length : Nat) : Int)) ∧
    (self.left.length ≠ self.right.length → f true self output_len = none) ∧
    (self.left.length = self.right.length → f true self output_len = f false self output_len)

/-- A dual input whose channels each hold 2^31 samples: the minimum no
longer fits in c_int. -/
def hugeDual : DualPcm Int :=
  { left := List.replicate 2147483648 0, right := List.replicate 2147483648 0 }

/-- Helper: every negative status code classifies to some encode error. -/
theorem from_c_int_encode_neg (code : Int) (h : code < 0) :
    ∃ e, EncodeError.from_c_int code = Except.error e := by
  unfold EncodeError.from_c_int
  rw [if_neg (by omega)]
  split_ifs <;> exact ⟨_, rfl⟩

/-- Claim C1: over the whole life of any context allocated by
Builder::new — dropped without building, built successfully (Builder
forgotten, Encoder eventually dropped), or built unsuccessfully
(Builder dropped inside build) — exactly one lame_close is issued. -/
theorem context_released_exactly_once (fate : BuilderFate) :
    (lifeTrace fate).countP LifeEvent.isClose = 1 := by
  cases fate with
  | droppedWithoutBuild => rfl
  | built code =>
    cases h : BuildError.from_c_int code <;>
      simp [lifeTrace, Builder.build, h, Builder.dropEvents, Encoder.dropEvents,
            List.countP_cons, List.countP_nil, LifeEvent.isClose]

/-- Counterexample to claim C2 as stated: on a tag with oversized album
art, set_id3_tag does return AlbumArtOverflow, but the tag-subsystem
init and the version-2 marker native calls have already been issued at
that point — the call trace at the error is not empty. -/
theorem set_id3_tag_overflow_after_marker_calls :
    Builder.set_id3_tag oversizedArtTag =
      ([TagCall.tagSubsystemStart, TagCall.addV2],
        Except.error Id3TagError.AlbumArtOverflow) ∧
    ([TagCall.tagSubsystemStart, TagCall.addV2] : List TagCall) ≠ [] := by
  have hart : oversizedArtTag.album_art = List.replicate (MAX_ALBUM_ART_SIZE + 1) 0 := rfl
  have hlen : oversizedArtTag.album_art.length = MAX_ALBUM_ART_SIZE + 1 := by
    rw [hart, List.length_replicate]
  have hne : oversizedArtTag.album_art.isEmpty = false := by
    rw [hart, List.replicate_succ, List.isEmpty_cons]
  have hset : oversizedArtTag.is_any_set = true := by
    simp [Id3Tag.is_any_set, hne]
  refine ⟨?_, by simp⟩
  simp [Builder.set_id3_tag, hset, hne, hlen]

/-- Claim C2 amended: on any tag whose album art exceeds the ceiling,
set_id3_tag returns AlbumArtOverflow before the album-art native call
and before any field-setter native call; exactly the tag-subsystem init
and version-2 marker calls have been issued when the error returns. -/
theorem set_id3_tag_overflow_trace (t : Id3Tag)
    (h : t.album_art.length > MAX_ALBUM_ART_SIZE) :
    Builder.set_id3_tag t =
      ([TagCall.tagSubsystemStart, TagCall.addV2],
        Except.error Id3TagError.AlbumArtOverflow) := by
  have hne : t.album_art.isEmpty = false := by
    cases harr : t.album_art with
    | nil => rw [harr] at h; simp [MAX_ALBUM_ART_SIZE] at h
    | cons x xs => simp
  have hset : t.is_any_set = true := by
    simp [Id3Tag.is_any_set, hne]
  simp [Builder.set_id3_tag, hset, hne, h]

/-- Witness for C2 amended at a concrete tag one byte over the limit. -/
theorem set_id3_tag_overflow_trace_witness :
    Builder.set_id3_tag oversizedArtTag =
      ([TagCall.tagSubsystemStart, TagCall.addV2],
        Except.error Id3TagError.AlbumArtOverflow) :=
  set_id3_tag_overflow_trace oversizedArtTag (by
    rw [show oversizedArtTag.album_art = List.replicate (MAX_ALBUM_ART_SIZE + 1) 0 from rfl,
        List.length_replicate]
    omega)

/-- Counterexample to claim C3 as stated: at n = usize::MAX the
mathematical value overflows, but the function returns the wrapped
value 2^62 + 7199, not the platform maximum. -/
theorem max_required_buffer_size_not_saturating :
    max_required_buffer_size usizeMax = 4611686018427395103 ∧
    4611686018427395103 ≠ usizeMax := by
  constructor
  · decide
  · decide

/-- Claim C3 amended: the function is total (never panics), and when the
mathematical value overflows it wraps modulo 2^64: for every usize n the
result is (n + ceil(n/4) + 7200) mod 2^64, not the saturated maximum. -/
theorem max_required_buffer_size_wraps (n : Nat) (h : n < usizeMod) :
    max_required_buffer_size n = (n + (n + 3) / 4 + 7200) % usizeMod := by
  have hm : usizeMod = 18446744073709551616 := by norm_num [usizeMod, usizeBits]
  simp only [max_required_buffer_size, usizeWrappingAdd, hm] at h ⊢
  split <;> omega

/-- Witness for C3 amended at n = usize::MAX. -/
theorem max_required_buffer_size_wraps_witness :
    max_required_buffer_size usizeMax = (usizeMax + (usizeMax + 3) / 4 + 7200) % usizeMod :=
  max_required_buffer_size_wraps usizeMax (by decide)

/-- Claim C4: for every sample count n whose mathematical bound
n + ceil(n/4) + 7200 fits in usize, max_required_buffer_size n equals
that bound exactly. -/
theorem max_required_buffer_size_exact (n : Nat)
    (h : n + (n + 3) / 4 + 7200 < usizeMod) :
    max_required_buffer_size n = n + (n + 3) / 4 + 7200 := by
  have hm : usizeMod = 18446744073709551616 := by norm_num [usizeMod, usizeBits]
  simp only [max_required_buffer_size, usizeWrappingAdd, hm] at h ⊢
  split <;> omega

/-- Witness for C4 at n = 10. -/
theorem max_required_buffer_size_exact_witness :
    10 + (10 + 3) / 4 + 7200 < usizeMod ∧
    max_required_buffer_size 10 = 10 + (10 + 3) / 4 + 7200 :=
  ⟨by decide, max_required_buffer_size_exact 10 (by decide)⟩

/-- Claim C5: BuildError::from_c_int maps every nonnegative code to
success, -1 to Generic, -10 to NoMem, -11 to BadBRate, -12 to
BadSampleFreq, -13 to InternalError, and every other negative code to
Other carrying that exact code. -/
theorem from_c_int_build_classification (code : Int) :
    (code ≥ 0 → BuildError.from_c_int code = Except.ok ()) ∧
    BuildError.from_c_int (-1) = Except.error BuildError.Generic ∧
    BuildError.from_c_int (-10) = Except.error BuildError.NoMem ∧
    BuildError.from_c_int (-11) = Except.error BuildError.BadBRate ∧
    BuildError.from_c_int (-12) = Except.error BuildError.BadSampleFreq ∧
    BuildError.from_c_int (-13) = Except.error BuildError.InternalError ∧
    (code < 0 → code ≠ -1 → code ≠ -10 → code ≠ -11 → code ≠ -12 → code ≠ -13 →
      BuildError.from_c_int code = Except.error (BuildError.Other code)) := by
  refine ⟨?_, rfl, rfl, rfl, rfl, rfl, ?_⟩
  · intro h
    simp [BuildError.from_c_int, h]
  · intro h h1 h10 h11 h12 h13
    have hn : ¬ code ≥ 0 := by omega
    simp [BuildError.from_c_int, hn, h1, h10, h11, h12, h13]

/-- Witness for C5 at codes 0 and -99. -/
theorem from_c_int_build_classification_witness :
    BuildError.from_c_int 0 = Except.ok () ∧
    BuildError.from_c_int (-99) = Except.error (BuildError.Other (-99)) :=
  ⟨(from_c_int_build_classification 0).1 (by decide),
   (from_c_int_build_classification (-99)).2.2.2.2.2.2
     (by decide) (by decide) (by decide) (by decide) (by decide) (by decide)⟩

/-- Claim C6: EncodeError::from_c_int maps every nonnegative code to
success carrying the code as byte count, -1 to BufferTooSmall, -2 to
NoMem, -3 to InvalidState, -4 to PsychoAcoustic, and every other
negative code to Other carrying that exact code. -/
theorem from_c_int_encode_classification (code : Int) :
    (code ≥ 0 → EncodeError.from_c_int code = Except.ok code.toNat) ∧
    EncodeError.from_c_int (-1) = Except.error EncodeError.BufferTooSmall ∧
    EncodeError.from_c_int (-2) = Except.error EncodeError.NoMem ∧
    EncodeError.from_c_int (-3) = Except.error EncodeError.InvalidState ∧
    EncodeError.from_c_int (-4) = Except.error EncodeError.PsychoAcoustic ∧
    (code < 0 → code ≠ -1 → code ≠ -2 → code ≠ -3 → code ≠ -4 →
      EncodeError.from_c_int code = Except.error (EncodeError.Other code)) := by
  refine ⟨?_, rfl, rfl, rfl, rfl, ?_⟩
  · intro h
    simp [EncodeError.from_c_int, h]
  · intro h h1 h2 h3 h4
    have hn : ¬ code ≥ 0 := by omega
    simp [EncodeError.from_c_int, hn, h1, h2, h3, h4]

/-- Witness for C6 at codes 1234 and -7. -/
theorem from_c_int_encode_classification_witness :
    EncodeError.from_c_int 1234 = Except.ok 1234 ∧
    EncodeError.from_c_int (-7) = Except.error (EncodeError.Other (-7)) :=
  ⟨(from_c_int_encode_classification 1234).1 (by decide),
   (from_c_int_encode_classification (-7)).2.2.2.2.2
     (by decide) (by decide) (by decide) (by decide) (by decide)⟩

/-- Helper: the `as c_int` cast is the identity below 2^31. -/
theorem usizeToCInt_of_lt (n : Nat) (h : n < 2 ^ 31) : usizeToCInt n = (n : Int) := by
  have hm : n % 2 ^ 32 = n := Nat.mod_eq_of_lt (by omega)
  simp only [usizeToCInt, hm]
  rw [if_pos h]

/-- Helper: any function with the common body shape of the five DualPcm
impls (assert equal lengths, take the minimum, cast to c_int, call the
entry point) satisfies the dual-channel sample-count policy. -/
theorem dualPolicy_of_eq {α : Type} (entry : FfiEntry)
    (f : Bool → DualPcm α → Nat → Option EncodeCall)
    (hf : ∀ da self output_len, f da self output_len =
      if da && !(self.left.length == self.right.length) then none
      else some { entry := entry
                  leftLen := self.left.length, rightLen := self.right.length
                  samplesNum := usizeToCInt (min self.left.length self.right.length)
                  outputLen := usizeToCInt output_len }) :
    dualPolicyHolds entry f := by
  intro self output_len
  refine ⟨by rw [hf]; simp, fun h => ?_, fun h => ?_, fun h => ?_⟩
  · rw [hf]
    simp [usizeToCInt_of_lt _ h]
  · rw [hf]
    simp [h]
  · rw [hf, hf]
    simp [h]

/-- Counterexample to claim C7 as stated: at a dual input with 2^31
samples per channel the minimum of the channel lengths is 2^31, but the
sample count argument passed to the native entry point is its
truncating `as c_int` cast, -2^31, which differs from the minimum. -/
theorem dualPcm_sample_count_truncates :
    (DualPcm.encodeI16 false hugeDual 0).map EncodeCall.samplesNum =
      some (-2147483648) ∧
    min hugeDual.left.length hugeDual.right.length = 2147483648 ∧
    (-2147483648 : Int) ≠ ((2147483648 : Nat) : Int) := by
  have hl : hugeDual.left.length = 2147483648 := by
    rw [show hugeDual.left = List.replicate 2147483648 (0 : Int) from rfl,
        List.length_replicate]
  have hr : hugeDual.right.length = 2147483648 := by
    rw [show hugeDual.right = List.replicate 2147483648 (0 : Int) from rfl,
        List.length_replicate]
  refine ⟨?_, ?_, by decide⟩
  · norm_num [DualPcm.encodeI16, hl, hr, usizeToCInt]
  · rw [hl, hr]
    exact min_self _

/-- Claim C7 amended: all five DualPcm impls (i16, u16, c_int, f32,
f64) compute min(left.len, right.len) and pass its truncating
`as c_int` cast as the native sample count — equal to the minimum
exactly when the minimum is below 2^31; a length mismatch is an
assertion failure under debug assertions, and optimized builds silently
proceed with the (truncated) minimum. -/
theorem dualPcm_min_sample_policy :
    dualPolicyHolds FfiEntry.lame_encode_buffer DualPcm.encodeI16 ∧
    dualPolicyHolds FfiEntry.lame_encode_buffer DualPcm.encodeU16 ∧
    dualPolicyHolds FfiEntry.lame_encode_buffer_int DualPcm.encodeCInt ∧
    dualPolicyHolds FfiEntry.lame_encode_buffer_ieee_float DualPcm.encodeF32 ∧
    dualPolicyHolds FfiEntry.lame_encode_buffer_ieee_double DualPcm.encodeF64 :=
  ⟨dualPolicy_of_eq _ _ (fun _ _ _ => rfl),
   dualPolicy_of_eq _ _ (fun _ _ _ => rfl),
   dualPolicy_of_eq _ _ (fun _ _ _ => rfl),
   dualPolicy_of_eq _ _ (fun _ _ _ => rfl),
   dualPolicy_of_eq _ _ (fun _ _ _ => rfl)⟩

/-- Witness for C7: a mismatched i16 dual input asserts in debug builds
and proceeds with sample count 1 = min(1, 2) in optimized builds. -/
theorem dualPcm_min_sample_policy_witness :
    DualPcm.encodeI16 true ⟨[1], [1, 2]⟩ 9 = none ∧
    (DualPcm.encodeI16 false ⟨[1], [1, 2]⟩ 9).map EncodeCall.samplesNum = some 1 :=
  ⟨(dualPcm_min_sample_policy.1 ⟨[1], [1, 2]⟩ 9).2.2.1 (by decide),
   (dualPcm_min_sample_policy.1 ⟨[1], [1, 2]⟩ 9).2.1 (by decide)⟩

/-- Claim C8: encode_to_vec and flush_to_vec advance the buffer length
by exactly the returned byte count on success (native wrote within the
spare capacity of a well-formed Vec), and leave the length unchanged on
every error. -/
theorem to_vec_length_discipline (code : Int) (output : VecBuf)
    (hcap : output.len ≤ output.cap) (hmod : output.cap < usizeMod) :
    (0 ≤ code → code.toNat ≤ output.cap - output.len →
      Encoder.encode_to_vec code output =
        (Except.ok code.toNat, { output with len := output.len + code.toNat }) ∧
      Encoder.flush_to_vec code output =
        (Except.ok code.toNat, { output with len := output.len + code.toNat })) ∧
    (code < 0 →
      (Encoder.encode_to_vec code output).2 = output ∧
      (Encoder.flush_to_vec code output).2 = output) := by
  constructor
  · intro hc hw
    have hok : EncodeError.from_c_int code = Except.ok code.toNat := by
      simp [EncodeError.from_c_int, hc]
    have hle : output.len + code.toNat ≤ usizeMax := by
      simp only [usizeMax]
      omega
    have hsat : usizeSaturatingAdd output.len code.toNat = output.len + code.toNat := by
      unfold usizeSaturatingAdd
      exact min_eq_left hle
    constructor <;>
      simp [Encoder.encode_to_vec, Encoder.flush_to_vec, hok, hsat]
  · intro hc
    obtain ⟨e, he⟩ := from_c_int_encode_neg code hc
    constructor <;>
      simp [Encoder.encode_to_vec, Encoder.flush_to_vec, he]

/-- Witness for C8: code 5 against a Vec of length 3, capacity 100. -/
theorem to_vec_length_discipline_witness :
    Encoder.encode_to_vec 5 ⟨3, 100⟩ = (Except.ok 5, ⟨8, 100⟩) :=
  ((to_vec_length_discipline 5 ⟨3, 100⟩ (by decide) (by decide)).1
    (by decide) (by decide)).1

/-- Claim C9: a tag whose six fields are all empty makes
set_id3_tag perform zero native calls and return success. -/
theorem set_id3_tag_empty_noop (t : Id3Tag)
    (h : t.title = [] ∧ t.artist = [] ∧ t.album = [] ∧
         t.album_art = [] ∧ t.year = [] ∧ t.comment = []) :
    Builder.set_id3_tag t = ([], Except.ok ()) := by
  obtain ⟨h1, h2, h3, h4, h5, h6⟩ := h
  simp [Builder.set_id3_tag, Id3Tag.is_any_set, h1, h2, h3, h4, h5, h6]

/-- Witness for C9 at the all-empty tag. -/
theorem set_id3_tag_empty_noop_witness :
    Builder.set_id3_tag ⟨[], [], [], [], [], []⟩ = ([], Except.ok ()) :=
  set_id3_tag_empty_noop ⟨[], [], [], [], [], []⟩ (by decide)

/-- Claim C10: set_sample_rate is total and clamps: rates at most
c_int::MAX pass through unchanged, larger u32 rates are clamped to
c_int::MAX, and the native result is classified by
BuildError::from_c_int. -/
theorem set_sample_rate_clamps (rate : Nat) (hrate : rate < 2 ^ 32) (native : Int → Int) :
    ((rate : Int) ≤ cIntMax → sampleRateArg rate = (rate : Int)) ∧
    (cIntMax < (rate : Int) → sampleRateArg rate = cIntMax) ∧
    Builder.set_sample_rate native rate =
      BuildError.from_c_int (native (sampleRateArg rate)) := by
  refine ⟨?_, ?_, rfl⟩
  · intro h
    simp [sampleRateArg, h]
  · intro h
    have hn : ¬ (rate : Int) ≤ cIntMax := by omega
    simp [sampleRateArg, hn]

/-- Witness for C10 at the u32 maximum, which exceeds c_int::MAX. -/
theorem set_sample_rate_clamps_witness :
    sampleRateArg 4294967295 = cIntMax :=
  (set_sample_rate_clamps 4294967295 (by decide) (fun _ => 0)).2.1 (by decide)
